import Mathlib

/-!
Verification of the `tidal-wrapper` authentication module (`src/auth.rs`).

The Rust module exchanges an application token plus username/password for a
Tidal session.  We embed the data model (`TidalCredentials`, `Session`,
`AuthError`) and the operations (`new`, the session setter, `create_session`,
`Session::get_session`, `Session::fetch_session_data`) as pure Lean functions.
The HTTP round trip performed by `reqwest` is modelled by an explicit
`HttpOutcome` argument (either a transport-level error or a response carrying a
status code and a JSON body), and the `log` crate's `debug!`/`error!` calls are
modelled as a list of emitted `LogEvent`s returned alongside the result, in
emission order.
-/

namespace TidalWrapper

/-- JSON values, as needed to model the response bodies handled by
`serde_json` in `fetch_session_data`. -/
inductive Json : Type
  | num (n : Int)
  | str (s : String)
  | bool (b : Bool)
  | null
  | arr (xs : List Json)
  | obj (fields : List (String × Json))

/-- `Session` from `auth.rs`: `user_id: i32`, `session_id: String`,
`country_code: String`.  The `i32` is modelled as `Int`; the i32 range
constraint reappears as a side condition where it matters. -/
structure Session where
  user_id : Int
  session_id : String
  country_code : String
  deriving DecidableEq, Repr

/-- `TidalCredentials` from `auth.rs`: a token plus an optional session. -/
structure TidalCredentials where
  token : String
  session : Option Session
  deriving DecidableEq, Repr

/-- Errors produced by the underlying `reqwest` transport layer, including the
serde deserialization failure raised by `response.json()`. -/
inductive ReqwestError : Type
  | connectionRefused
  | timeout
  | tlsError
  | malformedFraming
  | jsonDecode (body : Json)

/-- `AuthError` from `auth.rs`: `AuthRequestFailed` wraps a `reqwest::Error`
as its `source` (via `#[from]`); `CreateSessionFailed` carries no detail. -/
inductive AuthError : Type
  | authRequestFailed (source : ReqwestError)
  | createSessionFailed

/-- The `source` of an `AuthError`, mirroring `std::error::Error::source`:
`AuthRequestFailed` has a cause, `CreateSessionFailed` has none. -/
def AuthError.cause : AuthError → Option ReqwestError
  | AuthError.authRequestFailed e => some e
  | AuthError.createSessionFailed => none

/-- Outcome of the single HTTP POST issued by `fetch_session_data`: either the
transport fails (`reqwest` error from `.send().await?`), or a response arrives
with a status code and a body. -/
inductive HttpOutcome : Type
  | transportError (e : ReqwestError)
  | response (status : Nat) (body : Json)

/-- Log events emitted by `fetch_session_data` through the `log` crate, in
source order: the `debug!` on the success-status path and the two `error!`
calls on the failure-status path. -/
inductive LogEvent : Type
  | debugResponse (status : Nat) (body : Json)
  | errorContext (token : String) (payload : List (String × String))
  | errorResponse (status : Nat) (body : Json)

/-- First-match lookup of a key in a JSON object's field list. -/
def jsonLookup : List (String × Json) → String → Option Json
  | [], _ => none
  | (k, v) :: rest, key => if k = key then some v else jsonLookup rest key

/-- Reads a JSON value as an integer, as serde does for an `i32` target
before the range check. -/
def asNum : Json → Option Int
  | Json.num n => some n
  | _ => none

/-- Reads a JSON value as a string, as serde does for a `String` target. -/
def asStr : Json → Option String
  | Json.str s => some s
  | _ => none

/-- Deserialization of a `Session` from JSON, as derived by
`#[derive(Deserialize)]` with `#[serde(rename_all = "camelCase")]`: the body
must be an object providing `userId` as an integer in `i32` range,
`sessionId` as a string and `countryCode` as a string; anything else fails. -/
def decodeSession : Json → Option Session
  | Json.obj fields =>
    (jsonLookup fields "userId").bind fun ju =>
    (jsonLookup fields "sessionId").bind fun js =>
    (jsonLookup fields "countryCode").bind fun jc =>
    (asNum ju).bind fun n =>
    (asStr js).bind fun sid =>
    (asStr jc).bind fun cc =>
    if -2147483648 ≤ n ∧ n ≤ 2147483647 then
      some { user_id := n, session_id := sid, country_code := cc }
    else none
  | _ => none

/-- Serialization of a `Session` to JSON, as derived by
`#[derive(Serialize)]` with `#[serde(rename_all = "camelCase")]`: fields in
declaration order under the camelCase names. -/
def encodeSession (s : Session) : Json :=
  Json.obj [("userId", Json.num s.user_id), ("sessionId", Json.str s.session_id),
    ("countryCode", Json.str s.country_code)]

/-- `reqwest::StatusCode::is_success`: the status lies in `200..=299`. -/
def statusIsSuccess (status : Nat) : Bool :=
  200 ≤ status && status ≤ 299

/-- `Session::fetch_session_data`.  The `?` on `.send().await` propagates a
transport error as `AuthRequestFailed` (with no prior logging); on a
success status the response is logged with `debug!` and then parsed with
`response.json()`, whose failure also propagates through `?` as
`AuthRequestFailed`; on a failure status two `error!` diagnostics are emitted
and then `CreateSessionFailed` is returned, without touching the body's
content. -/
def Session.fetch_session_data (token : String) (payload : List (String × String))
    (http : HttpOutcome) : Except AuthError Session × List LogEvent :=
  match http with
  | HttpOutcome.transportError e =>
    (Except.error (AuthError.authRequestFailed e), [])
  | HttpOutcome.response status body =>
    if statusIsSuccess status then
      match decodeSession body with
      | some s => (Except.ok s, [LogEvent.debugResponse status body])
      | none =>
        (Except.error (AuthError.authRequestFailed (ReqwestError.jsonDecode body)),
          [LogEvent.debugResponse status body])
    else
      (Except.error AuthError.createSessionFailed,
        [LogEvent.errorContext token payload, LogEvent.errorResponse status body])

/-- `Session::get_session`: builds the form payload holding `username` and
`password` and delegates to `fetch_session_data`. -/
def Session.get_session (token username password : String) (http : HttpOutcome) :
    Except AuthError Session × List LogEvent :=
  Session.fetch_session_data token
    [("username", username), ("password", password)] http

/-- `TidalCredentials::new`: stores the token, no session, no validation. -/
def TidalCredentials.new (token : String) : TidalCredentials :=
  { token := token, session := none }

/-- The `TidalCredentials::session` builder method: replaces the session
field of the consumed value and returns the result. -/
def TidalCredentials.with_session (c : TidalCredentials) (session : Option Session) :
    TidalCredentials :=
  { c with session := session }

/-- `Result::ok`: converts a `Result` to an `Option`, discarding any error. -/
def resultToOption {ε α : Type} : Except ε α → Option α
  | Except.ok a => some a
  | Except.error _ => none

/-- `TidalCredentials::create_session`.  An empty token hits the `panic!`
(modelled as `Except.error` carrying the panic message, so a normal return is
`Except.ok`); otherwise the session exchange runs and its result is attached
via `.ok()`, which collapses every `AuthError` to `None`. -/
def TidalCredentials.create_session (c : TidalCredentials) (username password : String)
    (http : HttpOutcome) : Except String TidalCredentials :=
  if c.token = "" then
    Except.error "Application Token needs to be set"
  else
    Except.ok (c.with_session
      (resultToOption (Session.get_session c.token username password http).1))

/-- The 200-response body used in the repository's own mock test:
`\x7b"userId": 123, "sessionId": "session-id-123", "countryCode": "US"\x7d`. -/
def sampleSuccessBody : Json :=
  Json.obj [("userId", Json.num 123), ("sessionId", Json.str "session-id-123"),
    ("countryCode", Json.str "US")]

/-- The 401-response body used in the repository's own mock test. -/
def sampleFailureBody : Json :=
  Json.obj [("status", Json.num 401), ("subStatus", Json.num 3001),
    ("userMessage", Json.str "Invalid credentials")]

/-- The session the repository's own mock test expects from
`sampleSuccessBody`. -/
def sessionSample : Session :=
  { user_id := 123, session_id := "session-id-123", country_code := "US" }

/-- A 200-response body missing the `countryCode` field. -/
def missingFieldBody : Json :=
  Json.obj [("userId", Json.num 123), ("sessionId", Json.str "session-id-123")]

/- ## Claims -/

/-- C9: for every token string, including the empty string, `new` succeeds
without validation and returns credentials holding exactly that token and no
session. -/
theorem new_stores_token_without_validation (t : String) :
    TidalCredentials.new t = { token := t, session := none }
    ∧ (TidalCredentials.new t).token = t
    ∧ (TidalCredentials.new t).session = none :=
  ⟨rfl, rfl, rfl⟩

/-- C7: the `session` builder method is pure: it returns a new value whose
session field is the given one and whose token is unchanged, and applying it
with different session values yields different credential values. -/
theorem with_session_pure (c : TidalCredentials) (s1 s2 : Option Session) :
    c.with_session s1 = { token := c.token, session := s1 }
    ∧ (c.with_session s1).token = c.token
    ∧ (c.with_session s1).session = s1
    ∧ (s1 ≠ s2 → c.with_session s1 ≠ c.with_session s2) := by
  refine ⟨rfl, rfl, rfl, ?_⟩
  intro hne heq
  exact hne (congrArg TidalCredentials.session heq)

/-- Witness for C7 at concrete inputs. -/
theorem with_session_pure_witness :
    (TidalCredentials.new "tok").with_session (some sessionSample)
      = { token := "tok", session := some sessionSample }
    ∧ (TidalCredentials.new "tok").with_session (some sessionSample)
      ≠ (TidalCredentials.new "tok").with_session none :=
  ⟨(with_session_pure (TidalCredentials.new "tok") (some sessionSample) none).1,
   (with_session_pure (TidalCredentials.new "tok") (some sessionSample) none).2.2.2
     (by simp)⟩

/-- C1: with a non-empty token, when the session exchange returns any
`AuthError`, `create_session` returns normally with sessionless credentials;
no error value reaches its caller. -/
theorem create_session_swallows_errors (c : TidalCredentials) (u p : String)
    (http : HttpOutcome) (e : AuthError)
    (htok : c.token ≠ "")
    (herr : (Session.get_session c.token u p http).1 = Except.error e) :
    c.create_session u p http = Except.ok { token := c.token, session := none } := by
  unfold TidalCredentials.create_session
  rw [if_neg htok, herr]
  rfl

/-- Witness for C1: a 401 rejection collapses to sessionless credentials. -/
theorem create_session_swallows_errors_witness :
    (TidalCredentials.new "some_token").create_session "myuser@example.com" "pw"
        (HttpOutcome.response 401 sampleFailureBody)
      = Except.ok { token := "some_token", session := none } :=
  create_session_swallows_errors (TidalCredentials.new "some_token")
    "myuser@example.com" "pw" (HttpOutcome.response 401 sampleFailureBody)
    AuthError.createSessionFailed (by simp [TidalCredentials.new]) rfl

/-- C2: `create_session` on an empty token aborts through the unrecoverable
`panic!` path and never returns a normal value; on a non-empty token that
path is unreachable and a normal value is returned. -/
theorem create_session_empty_token_panics (c : TidalCredentials) (u p : String)
    (http : HttpOutcome) :
    (c.token = "" →
      c.create_session u p http = Except.error "Application Token needs to be set"
      ∧ ∀ r, c.create_session u p http ≠ Except.ok r)
    ∧ (c.token ≠ "" → ∃ r, c.create_session u p http = Except.ok r) := by
  constructor
  · intro h
    unfold TidalCredentials.create_session
    rw [if_pos h]
    exact ⟨rfl, fun r hr => Except.noConfusion hr⟩
  · intro h
    unfold TidalCredentials.create_session
    rw [if_neg h]
    exact ⟨_, rfl⟩

/-- Witness for C2 at concrete inputs: the empty token aborts, a non-empty
token returns normally. -/
theorem create_session_empty_token_panics_witness :
    ((TidalCredentials.new "").create_session "u" "p"
        (HttpOutcome.response 200 sampleSuccessBody)
      = Except.error "Application Token needs to be set")
    ∧ ∃ r, (TidalCredentials.new "tok").create_session "u" "p"
        (HttpOutcome.response 200 sampleSuccessBody) = Except.ok r :=
  ⟨((create_session_empty_token_panics (TidalCredentials.new "") "u" "p"
      (HttpOutcome.response 200 sampleSuccessBody)).1 rfl).1,
   (create_session_empty_token_panics (TidalCredentials.new "tok") "u" "p"
      (HttpOutcome.response 200 sampleSuccessBody)).2
     (by simp [TidalCredentials.new])⟩

/-- C10: with a non-empty token, `create_session` returns credentials whose
token equals the input token, whatever the exchange outcome. -/
theorem create_session_preserves_token (c : TidalCredentials) (u p : String)
    (http : HttpOutcome) (h : c.token ≠ "") :
    ∃ r, c.create_session u p http = Except.ok r ∧ r.token = c.token := by
  unfold TidalCredentials.create_session
  rw [if_neg h]
  exact ⟨_, rfl, rfl⟩

/-- Witness for C10: the token survives a transport failure. -/
theorem create_session_preserves_token_witness :
    ∃ r, (TidalCredentials.new "some_token").create_session "u" "p"
        (HttpOutcome.transportError ReqwestError.timeout) = Except.ok r
      ∧ r.token = (TidalCredentials.new "some_token").token :=
  create_session_preserves_token (TidalCredentials.new "some_token") "u" "p"
    (HttpOutcome.transportError ReqwestError.timeout)
    (by simp [TidalCredentials.new])

/-- C3: on a 2xx response whose body deserializes under the camelCase field
mapping, the exchanger succeeds with that session, and `create_session` on a
valid token attaches it; at 200 with the documented body the three fields are
123, "session-id-123" and "US". -/
theorem get_session_success_parses (c : TidalCredentials) (u p : String)
    (status : Nat) (body : Json) (s : Session)
    (htok : c.token ≠ "")
    (hst : statusIsSuccess status = true)
    (hdec : decodeSession body = some s) :
    (Session.get_session c.token u p (HttpOutcome.response status body)).1 = Except.ok s
    ∧ c.create_session u p (HttpOutcome.response status body)
        = Except.ok (c.with_session (some s)) := by
  have h1 : (Session.get_session c.token u p (HttpOutcome.response status body)).1
      = Except.ok s := by
    simp [Session.get_session, Session.fetch_session_data, hst, hdec]
  refine ⟨h1, ?_⟩
  unfold TidalCredentials.create_session
  rw [if_neg htok, h1]
  rfl

/-- Witness for C3 at the repository's own mock input. -/
theorem get_session_success_parses_witness :
    (Session.get_session "some_token" "myuser@example.com" "pw"
        (HttpOutcome.response 200 sampleSuccessBody)).1
      = Except.ok sessionSample
    ∧ (TidalCredentials.new "some_token").create_session "myuser@example.com" "pw"
        (HttpOutcome.response 200 sampleSuccessBody)
      = Except.ok ((TidalCredentials.new "some_token").with_session (some sessionSample)) :=
  get_session_success_parses (TidalCredentials.new "some_token")
    "myuser@example.com" "pw" 200 sampleSuccessBody sessionSample
    (by simp [TidalCredentials.new]) rfl rfl

/-- C4: on any non-2xx response the exchanger returns `CreateSessionFailed`,
emitting exactly the two diagnostic events beforehand, and the result never
depends on the body: the body is not parsed. -/
theorem fetch_session_failure_status (token : String) (payload : List (String × String))
    (status : Nat) (body : Json)
    (h : statusIsSuccess status = false) :
    Session.fetch_session_data token payload (HttpOutcome.response status body)
      = (Except.error AuthError.createSessionFailed,
         [LogEvent.errorContext token payload, LogEvent.errorResponse status body])
    ∧ ∀ body2 : Json,
        (Session.fetch_session_data token payload (HttpOutcome.response status body2)).1
          = Except.error AuthError.createSessionFailed := by
  constructor
  · simp [Session.fetch_session_data, h]
  · intro body2
    simp [Session.fetch_session_data, h]

/-- Witness for C4 at status 401: same error on two different bodies, with
the diagnostic log emitted. -/
theorem fetch_session_failure_status_witness :
    Session.fetch_session_data "some_token" [("username", "u"), ("password", "p")]
        (HttpOutcome.response 401 sampleFailureBody)
      = (Except.error AuthError.createSessionFailed,
         [LogEvent.errorContext "some_token" [("username", "u"), ("password", "p")],
          LogEvent.errorResponse 401 sampleFailureBody])
    ∧ (Session.fetch_session_data "some_token" [("username", "u"), ("password", "p")]
        (HttpOutcome.response 401 sampleSuccessBody)).1
      = Except.error AuthError.createSessionFailed :=
  ⟨(fetch_session_failure_status "some_token" [("username", "u"), ("password", "p")]
      401 sampleFailureBody rfl).1,
   (fetch_session_failure_status "some_token" [("username", "u"), ("password", "p")]
      401 sampleFailureBody rfl).2 sampleSuccessBody⟩

/-- C5: a transport failure surfaces as `AuthRequestFailed` carrying the
underlying error as its cause, a 2xx body that fails deserialization also
surfaces as `AuthRequestFailed`, and a transport failure never yields
`CreateSessionFailed`. -/
theorem transport_failure_wrapped (token : String) (payload : List (String × String))
    (e : ReqwestError) (status : Nat) (body : Json)
    (hst : statusIsSuccess status = true) (hdec : decodeSession body = none) :
    Session.fetch_session_data token payload (HttpOutcome.transportError e)
      = (Except.error (AuthError.authRequestFailed e), [])
    ∧ (AuthError.authRequestFailed e).cause = some e
    ∧ (Session.fetch_session_data token payload (HttpOutcome.response status body)).1
        = Except.error (AuthError.authRequestFailed (ReqwestError.jsonDecode body))
    ∧ (Session.fetch_session_data token payload (HttpOutcome.transportError e)).1
        ≠ Except.error AuthError.createSessionFailed := by
  refine ⟨rfl, rfl, ?_, ?_⟩
  · simp [Session.fetch_session_data, hst, hdec]
  · intro hcontra
    simp [Session.fetch_session_data] at hcontra

/-- Witness for C5: a refused connection, and a 200 response whose body does
not deserialize. -/
theorem transport_failure_wrapped_witness :
    Session.fetch_session_data "some_token" [("username", "u"), ("password", "p")]
        (HttpOutcome.transportError ReqwestError.connectionRefused)
      = (Except.error (AuthError.authRequestFailed ReqwestError.connectionRefused), [])
    ∧ (AuthError.authRequestFailed ReqwestError.connectionRefused).cause
      = some ReqwestError.connectionRefused
    ∧ (Session.fetch_session_data "some_token" [("username", "u"), ("password", "p")]
        (HttpOutcome.response 200 sampleFailureBody)).1
      = Except.error (AuthError.authRequestFailed (ReqwestError.jsonDecode sampleFailureBody))
    ∧ (Session.fetch_session_data "some_token" [("username", "u"), ("password", "p")]
        (HttpOutcome.transportError ReqwestError.connectionRefused)).1
      ≠ Except.error AuthError.createSessionFailed :=
  transport_failure_wrapped "some_token" [("username", "u"), ("password", "p")]
    ReqwestError.connectionRefused 200 sampleFailureBody rfl rfl

/-- C6: a successful exchange only ever produces a session deserialized from
the body, such a session has all three fields present in the body under the
camelCase names, and a 2xx body that is malformed or missing a field yields a
request-layer error rather than a partial session. -/
theorem sessions_always_complete (token : String) (payload : List (String × String))
    (status : Nat) (body : Json) (s : Session) :
    ((Session.fetch_session_data token payload (HttpOutcome.response status body)).1
        = Except.ok s →
      decodeSession body = some s)
    ∧ (decodeSession body = some s →
      ∃ fields, body = Json.obj fields
        ∧ jsonLookup fields "userId" = some (Json.num s.user_id)
        ∧ jsonLookup fields "sessionId" = some (Json.str s.session_id)
        ∧ jsonLookup fields "countryCode" = some (Json.str s.country_code))
    ∧ (statusIsSuccess status = true → decodeSession body = none →
      (Session.fetch_session_data token payload (HttpOutcome.response status body)).1
        = Except.error (AuthError.authRequestFailed (ReqwestError.jsonDecode body))) := by
  refine ⟨?_, ?_, ?_⟩
  · intro h
    by_cases hst : statusIsSuccess status = true
    · cases hdec : decodeSession body with
      | some s2 =>
        simp [Session.fetch_session_data, hst, hdec] at h
        simp [hdec, h]
      | none =>
        simp [Session.fetch_session_data, hst, hdec] at h
    · simp [Session.fetch_session_data, hst] at h
  · intro h
    cases body with
    | obj fields =>
      refine ⟨fields, rfl, ?_⟩
      unfold decodeSession at h
      rw [Option.bind_eq_some] at h
      obtain ⟨ju, hju, h⟩ := h
      rw [Option.bind_eq_some] at h
      obtain ⟨js, hjs, h⟩ := h
      rw [Option.bind_eq_some] at h
      obtain ⟨jc, hjc, h⟩ := h
      rw [Option.bind_eq_some] at h
      obtain ⟨n, hn, h⟩ := h
      rw [Option.bind_eq_some] at h
      obtain ⟨sid, hsd, h⟩ := h
      rw [Option.bind_eq_some] at h
      obtain ⟨cc, hc, h⟩ := h
      have hjun : ju = Json.num n := by
        cases ju <;> simp_all [asNum]
      have hjss : js = Json.str sid := by
        cases js <;> simp_all [asStr]
      have hjcs : jc = Json.str cc := by
        cases jc <;> simp_all [asStr]
      have hs : s = { user_id := n, session_id := sid, country_code := cc } := by
        by_cases hr : -2147483648 ≤ n ∧ n ≤ 2147483647
        · rw [if_pos hr] at h
          exact (Option.some.inj h).symm
        · rw [if_neg hr] at h
          exact absurd h (by simp)
      refine ⟨?_, ?_, ?_⟩
      · rw [hju, hjun, hs]
      · rw [hjs, hjss, hs]
      · rw [hjc, hjcs, hs]
    | num n => exact absurd h (by simp [decodeSession])
    | str t => exact absurd h (by simp [decodeSession])
    | bool b => exact absurd h (by simp [decodeSession])
    | null => exact absurd h (by simp [decodeSession])
    | arr xs => exact absurd h (by simp [decodeSession])
  · intro hst hdec
    simp [Session.fetch_session_data, hst, hdec]

/-- Witness for C6: the mock success body decodes to the full session, and a
body missing `countryCode` yields the request-layer error. -/
theorem sessions_always_complete_witness :
    decodeSession sampleSuccessBody = some sessionSample
    ∧ (Session.fetch_session_data "some_token" [("username", "u"), ("password", "p")]
        (HttpOutcome.response 200 missingFieldBody)).1
      = Except.error (AuthError.authRequestFailed (ReqwestError.jsonDecode missingFieldBody)) :=
  ⟨(sessions_always_complete "some_token" [("username", "u"), ("password", "p")]
      200 sampleSuccessBody sessionSample).1 rfl,
   (sessions_always_complete "some_token" [("username", "u"), ("password", "p")]
      200 missingFieldBody sessionSample).2.2 rfl rfl⟩

/-- C8: encoding a `Session` under the camelCase field mapping and decoding
the result restores the session exactly; the hypothesis records the `i32`
range invariant every Rust `Session` satisfies by type. -/
theorem session_roundtrip (s : Session)
    (h : -2147483648 ≤ s.user_id ∧ s.user_id ≤ 2147483647) :
    decodeSession (encodeSession s) = some s := by
  obtain ⟨n, sid, cc⟩ := s
  have h2 : -2147483648 ≤ n ∧ n ≤ 2147483647 := h
  simp [encodeSession, decodeSession, jsonLookup, asNum, asStr, h2]

/-- Witness for C8 at the documented session value. -/
theorem session_roundtrip_witness :
    decodeSession (encodeSession sessionSample) = some sessionSample :=
  session_roundtrip sessionSample (by constructor <;> decide)

end TidalWrapper
